import Mathlib

/-
Verification of the numeric core of AudioCoderAndroid's JNI layer
(src/AudioCoder/src/main/jni/libloud.cpp).

Modelling conventions:
* IEEE doubles are modelled by the inductive type `FD`: NaN, signed
  infinities, and finite values carried as exact rationals.  Rounding of
  finite double arithmetic is idealised away (finite operations are exact
  rational operations); NaN/infinity propagation and comparisons follow
  IEEE-754 semantics as C's double operators implement them.
* C integer casts of floating values, `(char)`, `(short)`, `(int64_t)`,
  truncate toward zero; this is `ratTrunc` / `realTrunc` below.  Casting a
  non-finite double to an integral type is undefined behaviour in C; it is
  modelled arbitrarily as 0 (no claim depends on such a value).
* The waveform synthesizer calls `sin`, so its samples live in `ℝ` with
  `Real.sin`.
-/

/-- Truncation toward zero of a rational, as C's float-to-integer casts do. -/
def ratTrunc (q : ℚ) : ℤ := if 0 ≤ q then ⌊q⌋ else ⌈q⌉

/-- Truncation toward zero of a real, as C's `(short)` cast does. -/
noncomputable def realTrunc (x : ℝ) : ℤ := if 0 ≤ x then ⌊x⌋ else ⌈x⌉

/-- Model of an IEEE double: NaN, an infinity (`true` = positive), or a
finite value represented exactly as a rational. -/
inductive FD where
  | nan : FD
  | inf : Bool → FD
  | fin : ℚ → FD
deriving DecidableEq

/-- IEEE addition on the double model. -/
def FD.add : FD → FD → FD
  | .nan, _ => .nan
  | _, .nan => .nan
  | .inf s, .inf t => if s = t then .inf s else .nan
  | .inf s, .fin _ => .inf s
  | .fin _, .inf t => .inf t
  | .fin a, .fin b => .fin (a + b)

/-- IEEE subtraction on the double model. -/
def FD.sub : FD → FD → FD
  | .nan, _ => .nan
  | _, .nan => .nan
  | .inf s, .inf t => if s = t then .nan else .inf s
  | .inf s, .fin _ => .inf s
  | .fin _, .inf t => .inf (!t)
  | .fin a, .fin b => .fin (a - b)

/-- IEEE multiplication on the double model (`∞ × 0 = NaN`, sign rules). -/
def FD.mul : FD → FD → FD
  | .nan, _ => .nan
  | _, .nan => .nan
  | .inf s, .inf t => .inf (s == t)
  | .inf s, .fin b => if b = 0 then .nan else .inf (s == decide (0 < b))
  | .fin a, .inf t => if a = 0 then .nan else .inf (t == decide (0 < a))
  | .fin a, .fin b => .fin (a * b)

/-- IEEE division on the double model (`x/0 = ±∞` for `x ≠ 0`, `0/0 = NaN`,
`∞/∞ = NaN`, `x/∞ = 0`).  The zero divisors that occur in the source are
positive zeros, so a zero divisor is treated as positive. -/
def FD.div : FD → FD → FD
  | .nan, _ => .nan
  | _, .nan => .nan
  | .inf _, .inf _ => .nan
  | .inf s, .fin b => .inf (s == decide (0 ≤ b))
  | .fin _, .inf _ => .fin 0
  | .fin a, .fin b =>
      if b = 0 then (if a = 0 then .nan else .inf (decide (0 < a)))
      else .fin (a / b)

/-- IEEE `<` on the double model: any comparison with NaN is false. -/
def FD.lt : FD → FD → Bool
  | .fin a, .fin b => decide (a < b)
  | .fin _, .inf t => t
  | .inf s, .fin _ => !s
  | .inf s, .inf t => !s && t
  | _, _ => false

/-- IEEE `>` on the double model. -/
def FD.gt (a b : FD) : Bool := FD.lt b a

/-- IEEE `≥` on the double model: false whenever an operand is NaN. -/
def FD.ge : FD → FD → Bool
  | .fin a, .fin b => decide (b ≤ a)
  | .fin _, .inf t => !t
  | .inf s, .fin _ => s
  | .inf s, .inf t => s || !t
  | _, _ => false

/-- Absolute value on the double model (C's `abs` applied to a double). -/
def FD.abs : FD → FD
  | .nan => .nan
  | .inf _ => .inf true
  | .fin a => .fin |a|

/-- The C `isnan` predicate on the double model. -/
def FD.isNaN : FD → Bool
  | .nan => true
  | _ => false

/-- C `floor` on the double model. -/
def FD.floor : FD → FD
  | .nan => .nan
  | .inf s => .inf s
  | .fin a => .fin ⌊a⌋

/-- C `ceil` on the double model. -/
def FD.ceil : FD → FD
  | .nan => .nan
  | .inf s => .inf s
  | .fin a => .fin ⌈a⌉

/-- The divisor array of the grid-square converter, from the source line
`double ydiv_arr[] = {10, 1, 0.04166666, 1 / 240, 1 / 240 / 24};`.
In C the initializers `1 / 240` and `1 / 240 / 24` are integer divisions,
mirrored here by computing them in `ℤ` before the conversion to `ℚ`. -/
def ydiv_arr : List ℚ := [10, 1, 0.04166666, ((1 / 240 : ℤ) : ℚ), ((1 / 240 / 24 : ℤ) : ℚ)]

/-- One digit-extraction step of the grid-square loop: divide the running
value by the divisor, take `floor` when the quotient is `> 0` and `ceil`
otherwise, and scale the remainder back up.  Returns the new running value
and the extracted digit. -/
def gsqStep (ycalc ydiv : FD) : FD × FD :=
  let yres := ycalc.div ydiv
  let ylp := if yres.gt (FD.fin 0) then yres.floor else yres.ceil
  ((yres.sub ylp).mul ydiv, ylp)

/-- Run the digit-extraction steps over a list of divisors, collecting the
extracted digits in order. -/
def gsqDigits (ycalc : FD) : List ℚ → List FD
  | [] => []
  | d :: ds =>
      let s := gsqStep ycalc (FD.fin d)
      s.2 :: gsqDigits s.1 ds

/-- First normalization conditional of the converter:
`if (lon < -180) lon += 360;`. -/
def normLonLow (lon : FD) : FD :=
  if lon.lt (FD.fin (-180)) then lon.add (FD.fin 360) else lon

/-- Longitude normalization of the converter: `if (lon < -180) lon += 360;`
followed by `if (lon > 180) lon -= 360;` (the second test sees the updated
value). -/
def normLon (lon : FD) : FD :=
  if (normLonLow lon).gt (FD.fin 180) then (normLonLow lon).sub (FD.fin 360)
  else normLonLow lon

/-- The two error conditions the converter reports by throwing: an
invalid-input error for NaN coordinates, an out-of-domain error for
`|latitude| ≥ 90`. -/
inductive GsqError where
  | invalidInput : GsqError
  | outOfDomain : GsqError
deriving DecidableEq

/-- The C cast `(char)(yn[k] + base)` applied to a digit: truncation toward
zero of a finite double (the digits that reach the output are integral, so
the truncation is exact); the cast of a non-finite double is undefined
behaviour in C and is modelled arbitrarily as 0. -/
def fdCode : FD → ℤ
  | .fin q => ratTrunc q
  | _ => 0

/-- Shallow embedding of
`Java_org_operatorfoundation_audiocoder_CJarInterface_WSPRLatLonToGSQ`.
Parameters appear in the source order and under the source names
`(lon, lat)`.  The output string is modelled as the list of the six
character codes `yn[0]+'A', yn[1]+'A', yn[2]+'0', yn[3]+'0', yn[4]+'a',
yn[5]+'a'`, where the even-indexed `yn` come from the latitude-derived
value `(lat+180)/2` and the odd-indexed ones from the longitude-derived
value `lon+90`. -/
def WSPRLatLonToGSQ (lon lat : FD) : Except GsqError (List ℤ) :=
  if lat.isNaN || lon.isNaN then .error .invalidInput
  else if (lat.abs).ge (FD.fin 90) then .error .outOfDomain
  else
    let nlon := normLon lon
    let latDigits := gsqDigits ((lat.add (FD.fin 180)).div (FD.fin 2)) ydiv_arr
    let lonDigits := gsqDigits (nlon.add (FD.fin 90)) ydiv_arr
    .ok [ fdCode ((latDigits.getD 0 FD.nan).add (FD.fin 65)),
          fdCode ((lonDigits.getD 0 FD.nan).add (FD.fin 65)),
          fdCode ((latDigits.getD 1 FD.nan).add (FD.fin 48)),
          fdCode ((lonDigits.getD 1 FD.nan).add (FD.fin 48)),
          fdCode ((latDigits.getD 2 FD.nan).add (FD.fin 97)),
          fdCode ((lonDigits.getD 2 FD.nan).add (FD.fin 97)) ]

/-- Evaluation helper: express `Int.ceil` through `Int.floor` so that
`norm_num` can evaluate ceilings of rational literals. -/
theorem ceil_as_floor (q : ℚ) : ⌈q⌉ = -⌊-q⌋ := by
  rw [← Int.ceil_neg, neg_neg]

/-- Symbol count of a WSPR transmission, `#define WSPR_SYMBOL_COUNT 162` in
libloud.cpp. -/
def WSPR_SYMBOL_COUNT : ℕ := 162

/-- Samples per symbol, `#define WSPR_SYMBOL_LENGTH 8192` in jni_link.h. -/
def WSPR_SYMBOL_LENGTH : ℕ := 8192

/-- The fixed volume constant of the PCM synthesizer:
`short volume = 16383;`. -/
def volume : ℕ := 16383

/-- The amplitude the PCM synthesizer actually uses:
`double amp = volume >> 2;` (the adjacent source comment says
`amp = volume / 2`). -/
def amp : ℕ := volume >>> 2

/-- The constant `double TAU = 2 * M_PI;` of the PCM synthesizer. -/
noncomputable def TAU : ℝ := 2 * Real.pi

/-- The in-place LSB-mode transform `symbols[i] = (uint8_t) 3 - symbols[i];`:
the subtraction happens in `int` and the store into a `uint8_t` reduces
mod 256. -/
def lsbTransform (s : ℕ) : ℕ := (((3 : ℤ) - (s : ℤ)) % 256).toNat

/-- One sample of `WSPREncodeToPCM` for a symbol of value `sym`:
`sound[i*WSPR_SYMBOL_LENGTH + step] = (short)(amp * sin(theta * step))`
with `theta = frequency * TAU / 12000` and
`frequency = 1500 + offset + symbols[i] * 1.4548`, the symbol being
replaced by `3 - symbols[i]` first when LSB mode is on.  The `(short)`
cast truncates toward zero (the value is within range, `|amp| ≤ 4095`). -/
noncomputable def WSPREncodeToPCM_sample (sym : ℕ) (offset : ℤ) (lsb : Bool) (step : ℕ) : ℤ :=
  realTrunc ((amp : ℝ) *
    Real.sin ((1500 + (offset : ℝ) + (((if lsb then lsbTransform sym else sym) : ℕ) : ℝ) * 1.4548) *
      TAU / 12000 * (step : ℝ)))

/-- The full PCM buffer of `WSPREncodeToPCM`: 162 × 8192 16-bit samples,
sample `n` belonging to symbol `n / 8192` at in-symbol position
`n % 8192`. -/
noncomputable def WSPREncodeToPCM_sound (symbols : ℕ → ℕ) (offset : ℤ) (lsb : Bool) : List ℤ :=
  (List.range (WSPR_SYMBOL_COUNT * WSPR_SYMBOL_LENGTH)).map
    (fun n => WSPREncodeToPCM_sample (symbols (n / WSPR_SYMBOL_LENGTH)) offset lsb
      (n % WSPR_SYMBOL_LENGTH))

/-- One entry of `WSPREncodeToFrequencies`:
`frequencies[i] = (int64_t)(frequency_hz * 100.0)` with
`frequency_hz = 1500.0 + offset + symbol * 1.4648`, the symbol being
replaced by `3 - symbol` first when LSB mode is on.  The `(int64_t)` cast
truncates toward zero. -/
def WSPREncodeToFrequencies_value (sym : ℕ) (offset : ℤ) (lsb : Bool) : ℤ :=
  ratTrunc ((1500 + (offset : ℚ) + (((if lsb then lsbTransform sym else sym) : ℕ) : ℚ) * 1.4648) * 100)

/-- Claim C1 (code bug): the claim says the five digit-extraction divisors
are exactly {10, 1, 1/24, 1/240, 1/5760}.  In the source the initializers
`1 / 240` and `1 / 240 / 24` are C integer divisions and evaluate to 0,
and the third literal is `0.04166666`, not 1/24; the array actually built
is {10, 1, 0.04166666, 0, 0}, so steps 4 and 5 divide by zero. -/
theorem C1_divisor_array_diverges :
    ydiv_arr = [10, 1, 0.04166666, 0, 0] ∧
    ydiv_arr ≠ [10, 1, 1/24, 1/240, 1/5760] := by
  constructor
  · norm_num [ydiv_arr]
  · norm_num [ydiv_arr]

/-- Claim C2 (code bug): the claim says that for every valid input the six
characters fall in the alphabets 'A'..'R' (codes 65..82), '0'..'9',
'a'..'x'.  At the valid input latitude 0, longitude 100 the converter
returns codes [74, 84, 48, 48, 97, 97] = "JT00aa": its second character,
code 84 = 'T', is outside 'A'..'R' (65..82). -/
theorem C2_alphabet_violation :
    WSPRLatLonToGSQ (FD.fin 100) (FD.fin 0) = .ok [74, 84, 48, 48, 97, 97] ∧
    ¬ (65 ≤ (84 : ℤ) ∧ (84 : ℤ) ≤ 82) := by
  constructor
  · norm_num [WSPRLatLonToGSQ, normLon, normLonLow, gsqDigits, gsqStep, ydiv_arr,
      FD.add, FD.sub, FD.mul, FD.div, FD.lt, FD.gt, FD.ge, FD.abs, FD.isNaN,
      FD.floor, FD.ceil, fdCode, ratTrunc, ceil_as_floor]
  · norm_num

/-- Claim C3 (code bug): the claim (and the comment in the source) says the
amplitude is the volume constant 16383 arithmetically halved.  The code
computes `amp = volume >> 2`, i.e. 4095, a quarter of the volume, not
16383 / 2. -/
theorem C3_amp_quarter_not_half :
    amp = 4095 ∧ (amp : ℚ) ≠ (volume : ℚ) / 2 := by
  constructor
  · decide
  · norm_num [amp, volume, Nat.shiftRight_eq_div_pow]

/-- Claim C4, counterexample: the claimed total of 2,657,024 bytes is wrong;
two bytes per sample over 162 × 8192 samples give 2,654,208 bytes. -/
theorem C4_pcm_bytecount_counterexample :
    2 * (WSPREncodeToPCM_sound (fun _ => 0) 0 false).length ≠ 2657024 := by
  have h : (WSPREncodeToPCM_sound (fun _ => 0) 0 false).length =
      WSPR_SYMBOL_COUNT * WSPR_SYMBOL_LENGTH := by
    unfold WSPREncodeToPCM_sound
    rw [List.length_map, List.length_range]
  rw [h]
  norm_num [WSPR_SYMBOL_COUNT, WSPR_SYMBOL_LENGTH]

/-- Claim C4 as amended: for every input the PCM encoder produces a
full-length buffer of 162 × 8192 16-bit samples — 2,654,208 bytes —
with no failure path. -/
theorem C4_pcm_full_length (symbols : ℕ → ℕ) (offset : ℤ) (lsb : Bool) :
    (WSPREncodeToPCM_sound symbols offset lsb).length =
      WSPR_SYMBOL_COUNT * WSPR_SYMBOL_LENGTH ∧
    2 * (WSPREncodeToPCM_sound symbols offset lsb).length = 2654208 := by
  have h : (WSPREncodeToPCM_sound symbols offset lsb).length =
      WSPR_SYMBOL_COUNT * WSPR_SYMBOL_LENGTH := by
    unfold WSPREncodeToPCM_sound
    rw [List.length_map, List.length_range]
  rw [h]
  norm_num [WSPR_SYMBOL_COUNT, WSPR_SYMBOL_LENGTH]

/-- Claim C5, counterexample: the claim says each entry equals
round(frequency_Hz × 100).  At symbol 2, offset 0 the frequency is
1502.9296 Hz, the entry is the truncation 150292, but rounding would give
150293. -/
theorem C5_round_counterexample :
    WSPREncodeToFrequencies_value 2 0 false ≠ round ((1500 + (0 : ℚ) + 2 * 1.4648) * 100) := by
  norm_num [WSPREncodeToFrequencies_value, ratTrunc, lsbTransform, round_eq]

/-- Claim C5 as amended: symbol 0 with offset 0 encodes to exactly 150000
(1500.00 Hz at 0.01 Hz resolution); in general an entry is frequency_Hz ×
100 truncated toward zero by the `(int64_t)` cast, not rounded — at
symbol 2, offset 0 the exact product is 150292.96 and the entry is
150292. -/
theorem C5_freq_fixed_point :
    WSPREncodeToFrequencies_value 0 0 false = 150000 ∧
    WSPREncodeToFrequencies_value 2 0 false = 150292 ∧
    (1500 + (0 : ℚ) + 2 * 1.4648) * 100 = 150292.96 := by
  refine ⟨?_, ?_, by norm_num⟩ <;>
    norm_num [WSPREncodeToFrequencies_value, ratTrunc, lsbTransform]

/-- Normalization helper: a longitude already in [-180, 180] is left
unchanged by the two wrap conditionals. -/
theorem normLon_base (lon : ℚ) (h1 : -180 ≤ lon) (h2 : lon ≤ 180) :
    normLon (FD.fin lon) = FD.fin lon := by
  have hl : FD.lt (FD.fin lon) (FD.fin (-180)) = false := by
    simp only [FD.lt, decide_eq_false_iff_not, not_lt]; linarith
  have hlow : normLonLow (FD.fin lon) = FD.fin lon := by
    simp [normLonLow, hl]
  have hg : FD.gt (FD.fin lon) (FD.fin 180) = false := by
    simp only [FD.gt, FD.lt, decide_eq_false_iff_not, not_lt]; linarith
  simp [normLon, hlow, hg]

/-- Normalization helper: for a longitude in (-180, 180], the value shifted
up by 360 is wrapped back to the original by the second conditional. -/
theorem normLon_shift_up (lon : ℚ) (h1 : -180 < lon) (h2 : lon ≤ 180) :
    normLon (FD.fin (lon + 360)) = FD.fin lon := by
  have hl : FD.lt (FD.fin (lon + 360)) (FD.fin (-180)) = false := by
    simp only [FD.lt, decide_eq_false_iff_not, not_lt]; linarith
  have hlow : normLonLow (FD.fin (lon + 360)) = FD.fin (lon + 360) := by
    simp [normLonLow, hl]
  have hg : FD.gt (FD.fin (lon + 360)) (FD.fin 180) = true := by
    simp only [FD.gt, FD.lt, decide_eq_true_eq]; linarith
  have hsub : (FD.fin (lon + 360)).sub (FD.fin 360) = FD.fin lon := by
    simp only [FD.sub]; norm_num
  simp [normLon, hlow, hg, hsub]

/-- Normalization helper: for a longitude in [-180, 180), the value shifted
down by 360 is wrapped back to the original by the first conditional. -/
theorem normLon_shift_down (lon : ℚ) (h1 : -180 ≤ lon) (h2 : lon < 180) :
    normLon (FD.fin (lon - 360)) = FD.fin lon := by
  have hl : FD.lt (FD.fin (lon - 360)) (FD.fin (-180)) = true := by
    simp only [FD.lt, decide_eq_true_eq]; linarith
  have hadd : (FD.fin (lon - 360)).add (FD.fin 360) = FD.fin lon := by
    simp only [FD.add]; norm_num
  have hlow : normLonLow (FD.fin (lon - 360)) = FD.fin lon := by
    simp [normLonLow, hl, hadd]
  have hg : FD.gt (FD.fin lon) (FD.fin 180) = false := by
    simp only [FD.gt, FD.lt, decide_eq_false_iff_not, not_lt]; linarith
  simp [normLon, hlow, hg]

/-- Congruence helper: the converter's output depends on the longitude only
through the normalized longitude. -/
theorem WSPRLatLonToGSQ_lon_congr (a b : ℚ) (lat : FD)
    (h : normLon (FD.fin a) = normLon (FD.fin b)) :
    WSPRLatLonToGSQ (FD.fin a) lat = WSPRLatLonToGSQ (FD.fin b) lat := by
  unfold WSPRLatLonToGSQ
  simp only [FD.isNaN, Bool.or_false, h]

/-- Claim C6, counterexample: at latitude 0 the longitudes -180 and
-180 + 360 = 180 are both accepted, both are left unchanged by the
normalization (which wraps into [-180, 180], not [-180, 180)), and they
produce different locator strings. -/
theorem C6_boundary_counterexample :
    WSPRLatLonToGSQ (FD.fin (-180 + 360)) (FD.fin 0) ≠
      WSPRLatLonToGSQ (FD.fin (-180)) (FD.fin 0) := by
  have h1 : WSPRLatLonToGSQ (FD.fin (-180 + 360)) (FD.fin 0) = .ok [74, 92, 48, 48, 97, 97] := by
    norm_num [WSPRLatLonToGSQ, normLon, normLonLow, gsqDigits, gsqStep, ydiv_arr,
      FD.add, FD.sub, FD.mul, FD.div, FD.lt, FD.gt, FD.ge, FD.abs, FD.isNaN,
      FD.floor, FD.ceil, fdCode, ratTrunc, ceil_as_floor]
  have h2 : WSPRLatLonToGSQ (FD.fin (-180)) (FD.fin 0) = .ok [74, 56, 48, 48, 97, 97] := by
    norm_num [WSPRLatLonToGSQ, normLon, normLonLow, gsqDigits, gsqStep, ydiv_arr,
      FD.add, FD.sub, FD.mul, FD.div, FD.lt, FD.gt, FD.ge, FD.abs, FD.isNaN,
      FD.floor, FD.ceil, fdCode, ratTrunc, ceil_as_floor]
  rw [h1, h2]
  simp

/-- Claim C6 as amended: for every latitude and every longitude strictly
inside (-180, 180), converting (lat, lon) and (lat, lon ± 360) yields the
same result, because the normalization wraps the shifted longitude back
to the original value; at the boundary longitudes ±180 the corresponding
shift yields a different string. -/
theorem C6_lon_shift_invariant (lat lon : ℚ) (h1 : -180 < lon) (h2 : lon < 180) :
    WSPRLatLonToGSQ (FD.fin (lon + 360)) (FD.fin lat) =
      WSPRLatLonToGSQ (FD.fin lon) (FD.fin lat) ∧
    WSPRLatLonToGSQ (FD.fin (lon - 360)) (FD.fin lat) =
      WSPRLatLonToGSQ (FD.fin lon) (FD.fin lat) :=
  ⟨WSPRLatLonToGSQ_lon_congr _ _ _
      (by rw [normLon_shift_up lon h1 (le_of_lt h2), normLon_base lon (le_of_lt h1) (le_of_lt h2)]),
   WSPRLatLonToGSQ_lon_congr _ _ _
      (by rw [normLon_shift_down lon (le_of_lt h1) h2, normLon_base lon (le_of_lt h1) (le_of_lt h2)])⟩

/-- Witness for C6: at latitude 0, longitude 0 the hypotheses hold and
converting longitude 0 + 360 gives the same result as longitude 0. -/
theorem C6_lon_shift_invariant_witness :
    (-180 < (0 : ℚ) ∧ (0 : ℚ) < 180) ∧
    WSPRLatLonToGSQ (FD.fin (0 + 360)) (FD.fin 0) = WSPRLatLonToGSQ (FD.fin 0) (FD.fin 0) :=
  ⟨⟨by norm_num, by norm_num⟩, (C6_lon_shift_invariant 0 0 (by norm_num) (by norm_num)).1⟩

/-- Claim C7 (confirmed): for every symbol value s in {0,1,2,3}, every
offset and every sample position, the PCM synthesizer in LSB mode on
symbol s produces exactly the sample the non-LSB mode produces on symbol
3 - s, because the LSB transform replaces s by 3 - s before the frequency
computation. -/
theorem C7_lsb_inversion (s : ℕ) (hs : s ≤ 3) (offset : ℤ) (step : ℕ) :
    WSPREncodeToPCM_sample s offset true step =
      WSPREncodeToPCM_sample (3 - s) offset false step := by
  have h : lsbTransform s = 3 - s := by
    interval_cases s <;> decide
  simp [WSPREncodeToPCM_sample, h]

/-- Witness for C7: the LSB-mode sample for symbol 0 equals the non-LSB
sample for symbol 3 at offset 7, step 5. -/
theorem C7_lsb_inversion_witness :
    (0 : ℕ) ≤ 3 ∧
    WSPREncodeToPCM_sample 0 7 true 5 = WSPREncodeToPCM_sample 3 7 false 5 :=
  ⟨by decide, C7_lsb_inversion 0 (by decide) 7 5⟩

/-- Claim C8 (confirmed): with the all-zero symbol array, offset 0 and LSB
mode off, every sample at in-symbol position `step` equals
`amp * sin(2π·1500·step/12000)` truncated to a 16-bit sample: the base
tone is exactly 1500 Hz. -/
theorem C8_base_frequency (step : ℕ) :
    WSPREncodeToPCM_sample 0 0 false step =
      realTrunc ((amp : ℝ) * Real.sin (2 * Real.pi * 1500 * (step : ℝ) / 12000)) := by
  unfold WSPREncodeToPCM_sample TAU
  norm_num
  congr 3
  ring

/-- Claim C9 (confirmed): the converter reports an invalid-input error when
either coordinate is NaN, an out-of-domain error when the latitude is
finite with |lat| ≥ 90, and for finite latitude with |lat| < 90 (and
non-NaN longitude) neither error branch is taken: a 6-character string is
returned. -/
theorem C9_gsq_validation (lon lat : FD) :
    ((lat = FD.nan ∨ lon = FD.nan) → WSPRLatLonToGSQ lon lat = .error .invalidInput) ∧
    (∀ q : ℚ, lat = FD.fin q → 90 ≤ |q| → lon ≠ FD.nan →
        WSPRLatLonToGSQ lon lat = .error .outOfDomain) ∧
    (∀ q : ℚ, lat = FD.fin q → |q| < 90 → lon ≠ FD.nan →
        ∃ cs, WSPRLatLonToGSQ lon lat = .ok cs ∧ cs.length = 6) := by
  refine ⟨?_, ?_, ?_⟩
  · rintro (rfl | rfl)
    · simp [WSPRLatLonToGSQ, FD.isNaN]
    · cases lat <;> simp [WSPRLatLonToGSQ, FD.isNaN]
  · rintro q rfl hq hlon
    cases lon with
    | nan => exact absurd rfl hlon
    | inf b => simp [WSPRLatLonToGSQ, FD.isNaN, FD.abs, FD.ge, hq]
    | fin p => simp [WSPRLatLonToGSQ, FD.isNaN, FD.abs, FD.ge, hq]
  · rintro q rfl hq hlon
    have hcond : FD.ge (FD.abs (FD.fin q)) (FD.fin 90) = false := by
      simp only [FD.abs, FD.ge, decide_eq_false_iff_not, not_le]; exact hq
    cases lon with
    | nan => exact absurd rfl hlon
    | inf b =>
        simp only [WSPRLatLonToGSQ, FD.isNaN, Bool.or_false, Bool.false_eq_true, if_false, hcond]
        exact ⟨_, rfl, rfl⟩
    | fin p =>
        simp only [WSPRLatLonToGSQ, FD.isNaN, Bool.or_false, Bool.false_eq_true, if_false, hcond]
        exact ⟨_, rfl, rfl⟩

/-- Witness for C9: NaN longitude gives the invalid-input error, latitude
90 the out-of-domain error, and latitude 0 with longitude 0 a 6-character
string. -/
theorem C9_gsq_validation_witness :
    WSPRLatLonToGSQ FD.nan (FD.fin 0) = .error .invalidInput ∧
    WSPRLatLonToGSQ (FD.fin 0) (FD.fin 90) = .error .outOfDomain ∧
    ∃ cs, WSPRLatLonToGSQ (FD.fin 0) (FD.fin 0) = .ok cs ∧ cs.length = 6 :=
  ⟨(C9_gsq_validation FD.nan (FD.fin 0)).1 (Or.inr rfl),
   (C9_gsq_validation (FD.fin 0) (FD.fin 90)).2.1 90 rfl (by norm_num) (by simp),
   (C9_gsq_validation (FD.fin 0) (FD.fin 0)).2.2 0 rfl (by norm_num) (by simp)⟩

/-- Claim C10 (confirmed): an infinite longitude passes both validation
checks — the NaN test and the |latitude| ≥ 90 test look only at NaN-ness
and at the latitude — so for any latitude with |lat| < 90 the converter
proceeds through normalization and digit extraction and returns a
6-character string rather than an error. -/
theorem C10_infinite_lon_accepted (b : Bool) (q : ℚ) (h : |q| < 90) :
    ∃ cs, WSPRLatLonToGSQ (FD.inf b) (FD.fin q) = .ok cs ∧ cs.length = 6 := by
  have hcond : FD.ge (FD.abs (FD.fin q)) (FD.fin 90) = false := by
    simp only [FD.abs, FD.ge, decide_eq_false_iff_not, not_le]; exact h
  simp only [WSPRLatLonToGSQ, FD.isNaN, Bool.or_false, Bool.false_eq_true, if_false, hcond]
  exact ⟨_, rfl, rfl⟩

/-- Witness for C10: at longitude +∞ and latitude 0 the converter returns a
6-character string. -/
theorem C10_infinite_lon_accepted_witness :
    |(0 : ℚ)| < 90 ∧
    ∃ cs, WSPRLatLonToGSQ (FD.inf true) (FD.fin 0) = .ok cs ∧ cs.length = 6 :=
  ⟨by norm_num, C10_infinite_lon_accepted true 0 (by norm_num)⟩
